import Mathlib

/-!
Shallow embedding of the `mia` Discord relay bot (`src/bot.py`) and proofs
about its message-normalization pipeline, feature-flag gate, webhook relay
and response handling.

Modelling conventions:
* Decoded JSON values are an inductive `Json` (objects keep insertion order,
  as Python dicts do; keys are unique by construction of the program's data).
* Python truthiness is `truthy`, Python `str(...)` is `pyStr` and `repr(...)`
  is `pyRepr` (string `repr` is modelled without escape sequences, which is
  exact for the quote-free strings this program manipulates).
* JSON numbers are modelled as integers; the program never computes with
  numeric payload fields.
* Network effects are modelled by enumerating the outcome of the single
  HTTP attempt a function makes; each embedded function consumes exactly one
  such outcome, mirroring the absence of retries in the source.
-/

namespace Mia

/-- Decoded JSON values as produced by `response.json()`.
Objects are association lists in insertion order. -/
inductive Json where
  | null
  | bool (b : Bool)
  | num (n : Int)
  | str (s : String)
  | arr (elems : List Json)
  | obj (fields : List (String × Json))

/-- Python truthiness of a decoded JSON value (`bool(x)`). -/
def truthy : Json → Bool
  | .null => false
  | .bool b => b
  | .num n => n != 0
  | .str s => !s.isEmpty
  | .arr xs => !xs.isEmpty
  | .obj ps => !ps.isEmpty

mutual

/-- Python `repr` of a decoded JSON value (escape-free strings). -/
def pyRepr : Json → String
  | .null => "None"
  | .bool true => "True"
  | .bool false => "False"
  | .num n => toString n
  | .str s => "\x27" ++ s ++ "\x27"
  | .arr xs => "[" ++ pyReprSeq xs ++ "]"
  | .obj ps => "\x7b" ++ pyReprFields ps ++ "\x7d"

/-- Comma-separated `repr`s of list elements. -/
def pyReprSeq : List Json → String
  | [] => ""
  | [x] => pyRepr x
  | x :: y :: xs => pyRepr x ++ ", " ++ pyReprSeq (y :: xs)

/-- Comma-separated `'key': repr(value)` pairs of a dict. -/
def pyReprFields : List (String × Json) → String
  | [] => ""
  | [(k, v)] => "\x27" ++ k ++ "\x27: " ++ pyRepr v
  | (k, v) :: q :: ps => "\x27" ++ k ++ "\x27: " ++ pyRepr v ++ ", " ++ pyReprFields (q :: ps)

end

/-- Python `str` of a decoded JSON value: identical to `repr` except that a
top-level string is returned verbatim. -/
def pyStr : Json → String
  | .str s => s
  | v => pyRepr v

/-- The key priority list of `extract_response_text` (`bot.py` line 173). -/
def response_keys : List String := ["response", "message", "output", "text", "reply"]

/-- The `for key in response_keys` loop of `extract_response_text`
(`bot.py` lines 174-176): first key that is present in the dict with a
truthy value (`if key in data and data[key]`). -/
def findResponseKey (ps : List (String × Json)) : List String → Option Json
  | [] => none
  | k :: ks =>
    match ps.lookup k with
    | some v => if truthy v then some v else findResponseKey ps ks
    | none => findResponseKey ps ks

/-- The dict-inspection and fallback part of `extract_response_text`
(`bot.py` lines 171-179), applied after the list step. -/
def extractCore (d : Json) : String :=
  match d with
  | .obj ps =>
    match findResponseKey ps response_keys with
    | some v => pyStr v
    | none => pyStr d
  | _ => pyStr d

/-- `extract_response_text` (`bot.py` lines 155-179): a list is replaced by
its first element (empty list gives `""`), then known keys are searched in a
dict, otherwise the Python string form is returned. -/
def extract_response_text (data : Json) : String :=
  match data with
  | .arr [] => ""
  | .arr (x :: _) => extractCore x
  | d => extractCore d

/-- The extractor as the spec's sentence literally reads ("the first present
value whose string form is non-empty"): key search by non-emptiness of the
Python string form instead of by truthiness. Used only to compare the spec's
wording against the source. -/
def findResponseKeySpec (ps : List (String × Json)) : List String → Option Json
  | [] => none
  | k :: ks =>
    match ps.lookup k with
    | some v => if pyStr v ≠ "" then some v else findResponseKeySpec ps ks
    | none => findResponseKeySpec ps ks

/-- Dict-inspection step of the spec-worded extractor. -/
def extractSpecCore (d : Json) : String :=
  match d with
  | .obj ps =>
    match findResponseKeySpec ps response_keys with
    | some v => pyStr v
    | none => pyStr d
  | _ => pyStr d

/-- Spec-worded extractor (see `findResponseKeySpec`); steps 1 and 3 are as in
the source. -/
def extractSpecWorded (data : Json) : String :=
  match data with
  | .arr [] => ""
  | .arr (x :: _) => extractSpecCore x
  | d => extractSpecCore d

/-- First key of `response_keys` that is present with a truthy value,
phrased independently of the source's loop (for the amended claim). -/
def firstTruthyKeyed (ps : List (String × Json)) (ks : List String) : Option Json :=
  (ks.filterMap fun k =>
    match ps.lookup k with
    | some v => if truthy v then some v else none
    | none => none).head?

/-- Dict-inspection step of the amended-claim extractor. -/
def extractAmendedCore (d : Json) : String :=
  match d with
  | .obj ps => ((firstTruthyKeyed ps response_keys).map pyStr).getD (pyStr d)
  | _ => pyStr d

/-- The amended-claim extractor: like the spec's wording but selecting the
first present value that is Python-truthy. -/
def extractAmendedSpec (data : Json) : String :=
  match data with
  | .arr [] => ""
  | .arr (x :: _) => extractAmendedCore x
  | d => extractAmendedCore d

/-! ## Attachment classifier (`classify_attachment`, `bot.py` lines 123-152) -/

/-- The inputs `classify_attachment` reads from a `discord.Attachment`;
`content_type` is `None` when the gateway reported no content type. -/
structure PyAttachment where
  filename : String
  url : String
  size : Nat
  content_type : Option String
deriving DecidableEq, Repr

/-- The dict the classifier returns (keys `filename`, `url`, `size`,
`content_type`, `type`). -/
structure AttachmentInfo where
  filename : String
  url : String
  size : Nat
  content_type : String
  type : String
deriving DecidableEq, Repr

/-- Python `str.startswith`, on code points. -/
def pyStartsWith (s pre : String) : Bool :=
  pre.data.isPrefixOf s.data

/-- `type_map` of `classify_attachment` (`bot.py` lines 135-139), in dict
insertion order. -/
def type_map : List (String × String) :=
  [("audio/", "audio"), ("image/", "image"), ("video/", "video")]

/-- `classify_attachment` (`bot.py` lines 123-152): `content_type or ""`,
then the first `type_map` prefix that matches, defaulting to `"file"`. -/
def classify_attachment (a : PyAttachment) : AttachmentInfo :=
  let content_type := a.content_type.getD ""
  let detected_type :=
    ((type_map.find? fun kv => pyStartsWith content_type kv.1).map (·.2)).getD "file"
  { filename := a.filename
    url := a.url
    size := a.size
    content_type := content_type
    type := detected_type }

/-! ## Feature-flag gate (`is_bot_enabled`, `bot.py` lines 207-259) -/

/-- Outcome of the single GET the gate performs. `response 200 (some body)` is
a 200 whose body decoded to `body`; `response 200 none` is a 200 whose body
failed to decode (the raised error is caught by the generic handler);
`response s _` with `s ≠ 200` takes the non-200 branch. -/
inductive FlagOutcome where
  | timeout
  | connError (msg : String)
  | otherExc (name : String)
  | response (status : Nat) (body : Option Json)

/-- `is_bot_enabled` (`bot.py` lines 207-259). Returns the Python value the
function returns: `data.get("enabled", True)` on a decoded 200 dict body
(an arbitrary JSON value, used for its truthiness by the callers), and
`True` on every failure: missing session, non-200 status, timeout,
connection error, any other exception, and a 200 body that is not a dict
(`.get` raises, caught by the generic handler). -/
def is_bot_enabled (sessionAvailable : Bool) (outcome : FlagOutcome) : Json :=
  if !sessionAvailable then .bool true
  else
    match outcome with
    | .response status body =>
      if status = 200 then
        match body with
        | some (.obj ps) => (ps.lookup "enabled").getD (.bool true)
        | _ => .bool true
      else .bool true
    | .timeout => .bool true
    | .connError _ => .bool true
    | .otherExc _ => .bool true

/-! ## Webhook relay (`send_to_webhook`, `bot.py` lines 266-377) -/

/-- Outcome of the single POST the relay performs. `ok body` is a 200 with
decoded JSON body; `httpError s t` is a non-200 status `s` with body text
`t`; the remaining constructors are the exception classes the source
catches (a 200 body that fails to decode raises `aiohttp.ClientError` or a
generic exception and lands in `clientError`/`otherExc`). -/
inductive WebhookOutcome where
  | noSession
  | ok (body : Json)
  | httpError (status : Nat) (text : String)
  | connError
  | timeout
  | clientError (name : String)
  | otherExc (name : String)

/-- The value `send_to_webhook` returns (`bot.py` lines 286-288 and 348-377):
the decoded body on 200, a synthetic `error` object on everything else.
The function makes exactly one POST attempt, modelled by consuming exactly
one `WebhookOutcome`. -/
def webhook_result : WebhookOutcome → Json
  | .noSession => .obj [("error", .str "Sesión HTTP no disponible")]
  | .ok body => body
  | .httpError status text =>
      .obj [("error", .str ("Error del servidor: " ++ toString status)),
            ("details", .str text)]
  | .connError => .obj [("error", .str "No se pudo conectar con el servidor")]
  | .timeout => .obj [("error", .str "El servidor tardó demasiado en responder")]
  | .clientError name => .obj [("error", .str ("Error de red: " ++ name))]
  | .otherExc name => .obj [("error", .str ("Error inesperado: " ++ name))]

/-- The `error` field of a JSON value when it is an object. -/
def getError (j : Json) : Option Json :=
  match j with
  | .obj ps => ps.lookup "error"
  | _ => none

/-! ## Webhook payload construction (`send_to_webhook`, `bot.py` lines 290-346) -/

/-- Guild data read when the message is not a DM (`bot.py` lines 323-328). -/
structure GuildCtx where
  id : Nat
  name : String
  icon_url : Option String
deriving DecidableEq, Repr

/-- Member-only data added when the author is a `discord.Member`
(`bot.py` lines 330-334). -/
structure MemberCtx where
  roles : List Nat
  joined_at : Option String
  nickname : Option String
deriving DecidableEq, Repr

/-- The fields of the `discord.Message` object that `send_to_webhook` reads
when building its metadata. Timestamps are carried as their `isoformat()`
strings. `member` is present exactly when the message is in a guild and the
author is a `discord.Member`. -/
structure MessageCtx where
  message_id : Nat
  created_at : String
  edited_at : Option String
  author_id : Nat
  author_name : String
  author_discriminator : String
  author_display_name : String
  author_is_bot : Bool
  author_avatar_url : Option String
  channel_id : Nat
  channel_type : String
  channel_name : Option String
  guild : Option GuildCtx
  member : Option MemberCtx
deriving DecidableEq, Repr

/-- An optional string as a JSON field (`None` becomes JSON null). -/
def optStr : Option String → Json
  | none => .null
  | some s => .str s

/-- The `user` sub-dict of the metadata (`bot.py` lines 298-305), with the
member fields appended when present (`bot.py` lines 331-334). -/
def build_user_info (m : MessageCtx) : Json :=
  .obj ([("id", .str (toString m.author_id)),
         ("username", .str m.author_name),
         ("discriminator", .str m.author_discriminator),
         ("display_name", .str m.author_display_name),
         ("bot", .bool m.author_is_bot),
         ("avatar_url", optStr m.author_avatar_url)] ++
    match m.guild, m.member with
    | some _, some mb =>
        [("roles", .arr (mb.roles.map fun r => .str (toString r))),
         ("joined_at", optStr mb.joined_at),
         ("nickname", optStr mb.nickname)]
    | _, _ => [])

/-- The `metadata` dict of the payload (`bot.py` lines 291-334). -/
def build_metadata (m : MessageCtx) : Json :=
  .obj [("message_id", .str (toString m.message_id)),
        ("created_at", .str m.created_at),
        ("edited_at", optStr m.edited_at),
        ("user", build_user_info m),
        ("channel", .obj [("id", .str (toString m.channel_id)),
                          ("type", .str m.channel_type),
                          ("name", optStr m.channel_name)]),
        ("guild", match m.guild with
          | none => .null
          | some g => .obj [("id", .str (toString g.id)),
                            ("name", .str g.name),
                            ("icon_url", optStr g.icon_url)]),
        ("conversation_id", .str (toString m.channel_id)),
        ("thread_id", .str (toString m.channel_id))]

/-- An attachment-info dict as placed in the payload. -/
def attachmentJson (a : AttachmentInfo) : Json :=
  .obj [("filename", .str a.filename),
        ("url", .str a.url),
        ("size", .num a.size),
        ("content_type", .str a.content_type),
        ("type", .str a.type)]

/-- The JSON payload `send_to_webhook` posts (`bot.py` lines 336-346).
The `attachments` key is added only when the argument is a non-empty list
(`if attachments:`); the caller passes `None` when there are none. -/
def build_payload (message_text user_id username : String) (m : MessageCtx)
    (attachments : Option (List AttachmentInfo)) : Json :=
  .obj ([("message", .str message_text),
         ("user_id", .str user_id),
         ("username", .str username),
         ("platform", .str "discord"),
         ("metadata", build_metadata m)] ++
    match attachments with
    | some (a :: rest) => [("attachments", .arr ((a :: rest).map attachmentJson))]
    | _ => [])

/-- Field lookup on a JSON object. -/
def getField (j : Json) (k : String) : Option Json :=
  match j with
  | .obj ps => ps.lookup k
  | _ => none

/-! ## Event routing (`on_message`, `bot.py` lines 576-607) -/

/-- The routing-relevant fields of an inbound gateway message. -/
structure InboundMsg where
  authorIsBot : Bool
  isDM : Bool
  botInMentions : Bool
  mentionEveryone : Bool
deriving DecidableEq, Repr

/-- Where `on_message` sends a message. -/
inductive Route where
  | ignored
  | relayPipeline
  | commandsOnly
deriving DecidableEq, Repr

/-- `on_message` (`bot.py` lines 576-607): bot authors are dropped; DMs and
direct non-broadcast mentions go to `process_message`; everything else goes
to `bot.process_commands` only. -/
def on_message_route (m : InboundMsg) : Route :=
  if m.authorIsBot then .ignored
  else if m.isDM then .relayPipeline
  else if m.botInMentions then
    if !m.mentionEveryone then .relayPipeline
    else .commandsOnly
  else .commandsOnly

/-! ## Chunked delivery (`send_chunked_response`, `bot.py` lines 427-447) -/

/-- `DISCORD_MESSAGE_LIMIT` (`bot.py` line 99). -/
def DISCORD_MESSAGE_LIMIT : Nat := 2000

/-- The slices `text[i:i+2000] for i in range(0, len(text), 2000)`, on code
points (Python indexes strings by code point). Fuel-driven so that it
computes; `sliceChunks` instantiates the fuel with the text length. -/
def sliceChunksAux : Nat → List Char → List (List Char)
  | 0, _ => []
  | _, [] => []
  | fuel + 1, cs =>
      cs.take DISCORD_MESSAGE_LIMIT :: sliceChunksAux fuel (cs.drop DISCORD_MESSAGE_LIMIT)

/-- The chunk list of the comprehension at `bot.py` lines 440-443. -/
def sliceChunks (cs : List Char) : List (List Char) :=
  sliceChunksAux cs.length cs

/-- The sequence of messages `send_chunked_response` sends (`bot.py` lines
427-447): the whole text when it fits in one message, otherwise the
2000-code-point slices in order (each followed by a 0.5 s pause). -/
def send_chunked_response (text : List Char) : List (List Char) :=
  if text.length ≤ DISCORD_MESSAGE_LIMIT then [text]
  else sliceChunks text

/-! ## Mention stripping and validation (`bot.py` lines 182-200 and 384-424) -/

/-- Python `' '.flatten(text.split())`: whitespace-run split with empties
dropped, rejoined with single spaces. -/
def pySplitJoin (s : String) : String :=
  String.intercalate " " ((s.split Char.isWhitespace).filter fun t => !t.isEmpty)

/-- `clean_mention_from_message` (`bot.py` lines 182-200): remove every
occurrence of the plain and nickname mention encodings of the bot's id,
strip, and collapse whitespace. -/
def clean_mention_from_message (content : String) (botId : Nat) : String :=
  let text := (content.replace ("<@" ++ toString botId ++ ">") "").trim
  let text := (text.replace ("<@!" ++ toString botId ++ ">") "").trim
  pySplitJoin text

/-- The message fields the validation step reads. `botMentioned` is
`bot.user.mentioned_in(message)`. -/
structure PipelineMsg where
  content : String
  botMentioned : Bool
  botId : Nat
  attachments : List PyAttachment
deriving DecidableEq, Repr

/-- The `type_map` of default texts for attachment-only messages
(`bot.py` lines 416-421). -/
def default_text_map : List (String × String) :=
  [("audio", "[Audio enviado]"), ("image", "[Imagen enviada]"),
   ("video", "[Video enviado]"), ("file", "[Archivo enviado]")]

/-- The mention-stripped text computed at `bot.py` lines 396-400. -/
def strippedText (m : PipelineMsg) : String :=
  if m.botMentioned then clean_mention_from_message m.content m.botId
  else m.content

/-- `validate_and_prepare_message` (`bot.py` lines 384-424): `None` when both
the stripped text and the attachment list are empty; otherwise the text (or
the placeholder keyed by the first attachment's `type` when the text is
empty) together with the classified attachments. -/
def validate_and_prepare_message (m : PipelineMsg) : Option (String × List AttachmentInfo) :=
  let user_message := strippedText m
  let attachments_info := m.attachments.map classify_attachment
  if user_message.isEmpty then
    match attachments_info with
    | [] => none
    | a :: rest =>
        some ((default_text_map.lookup a.type).getD "[Archivo enviado]", a :: rest)
  else some (user_message, attachments_info)

/-- Observable outcome of `process_message` (`bot.py` lines 483-531) up to
the point where the webhook is (or is not) called. -/
inductive PipelineResult where
  | skippedBotAuthor
  | disabledNotice
  | helpPrompt
  | relayed (payloadMessage : String) (attachments : List AttachmentInfo)
deriving DecidableEq, Repr

/-- `process_message` (`bot.py` lines 483-531) up to the webhook call:
bot authors are skipped, a disabled flag sends the fixed notice, an invalid
message sends the help prompt, and otherwise the prepared text and
attachments are relayed. `flagEnabled` is the truthiness of the
`is_bot_enabled` result. -/
def process_message (authorIsBot flagEnabled : Bool) (m : PipelineMsg) : PipelineResult :=
  if authorIsBot then .skippedBotAuthor
  else if !flagEnabled then .disabledNotice
  else
    match validate_and_prepare_message m with
    | none => .helpPrompt
    | some (text, atts) => .relayed text atts

/-! ## Response handling (`handle_webhook_response`, `bot.py` lines 450-480) -/

/-- `SYSTEM_MESSAGES` (`bot.py` line 101). -/
def SYSTEM_MESSAGES : List String := ["Workflow started", "Workflow executed successfully"]

/-- Python `"error" in response_data` (`bot.py` line 462): key membership for
a dict, element membership for a list, substring test for a string, and a
`TypeError` (modelled as `Except.error ()`) for any other JSON value. -/
def errorKeyTest (j : Json) : Except Unit Bool :=
  match j with
  | .obj ps => .ok (ps.any fun p => p.1 == "error")
  | .arr xs => .ok (xs.any fun x =>
      match x with
      | .str s => s == "error"
      | _ => false)
  | .str s => .ok (decide (("error" : String).data <:+: s.data))
  | _ => .error ()

/-- The outbound action `handle_webhook_response` takes. -/
inductive HandlerAction where
  | sendError (msg : String)
  | sendEmptyNotice
  | suppressSystem
  | deliver (text : String)
deriving DecidableEq, Repr

/-- `handle_webhook_response` (`bot.py` lines 450-480). `Except.error ()` is
an uncaught `TypeError`/`AttributeError` (the membership test on a
number/bool/null, or `.get` on a list/string that passed the test).
On the error path the notice embeds `str(error_msg)`; otherwise the
extracted text selects the empty-response notice, system-message
suppression, or chunked delivery of the text itself. -/
def handle_webhook_response (response_data : Json) : Except Unit HandlerAction :=
  match errorKeyTest response_data with
  | .error e => .error e
  | .ok true =>
    match response_data with
    | .obj ps =>
        .ok (.sendError ("❌ Lo siento, hubo un error: " ++
          pyStr ((ps.lookup "error").getD (.str "Error desconocido"))))
    | _ => .error ()
  | .ok false =>
    let response_text := extract_response_text response_data
    if response_text.isEmpty then .ok .sendEmptyNotice
    else if response_text ∈ SYSTEM_MESSAGES then .ok .suppressSystem
    else .ok (.deliver response_text)

/-! ## Helper lemmas -/

/-- Two matching prefixes of equal length are the same string. -/
lemma pyStartsWith_exclusive {s p q : String} (hp : pyStartsWith s p = true)
    (hq : pyStartsWith s q = true) (hlen : p.data.length = q.data.length) :
    p.data = q.data := by
  have hp' : p.data <+: s.data := List.isPrefixOf_iff_prefix.mp hp
  have hq' : q.data <+: s.data := List.isPrefixOf_iff_prefix.mp hq
  exact (List.prefix_of_prefix_length_le hp' hq' (le_of_eq hlen)).eq_of_length hlen

/-- The classifier's `type` field as the prefix-test chain it computes. -/
lemma classify_attachment_type (a : PyAttachment) :
    (classify_attachment a).type =
      (if pyStartsWith (a.content_type.getD "") "audio/" then "audio"
       else if pyStartsWith (a.content_type.getD "") "image/" then "image"
       else if pyStartsWith (a.content_type.getD "") "video/" then "video"
       else "file") := by
  cases hA : pyStartsWith (a.content_type.getD "") "audio/" <;>
  cases hI : pyStartsWith (a.content_type.getD "") "image/" <;>
  cases hV : pyStartsWith (a.content_type.getD "") "video/" <;>
    simp [classify_attachment, type_map, List.find?, hA, hI, hV]

/-- C8: the attachment classifier sets `type` to `audio`/`image`/`video`
exactly when the declared content type starts with the matching prefix, and
to `file` exactly when no prefix matches (in particular when the content
type is absent); it is a total function with no error cases. -/
theorem C8_classifier_kind (a : PyAttachment) :
    ((classify_attachment a).type = "audio" ↔
       pyStartsWith (a.content_type.getD "") "audio/" = true)
  ∧ ((classify_attachment a).type = "image" ↔
       pyStartsWith (a.content_type.getD "") "image/" = true)
  ∧ ((classify_attachment a).type = "video" ↔
       pyStartsWith (a.content_type.getD "") "video/" = true)
  ∧ ((classify_attachment a).type = "file" ↔
       (pyStartsWith (a.content_type.getD "") "audio/" = false ∧
        pyStartsWith (a.content_type.getD "") "image/" = false ∧
        pyStartsWith (a.content_type.getD "") "video/" = false)) := by
  have h := classify_attachment_type a
  cases hA : pyStartsWith (a.content_type.getD "") "audio/" <;>
  cases hI : pyStartsWith (a.content_type.getD "") "image/" <;>
  cases hV : pyStartsWith (a.content_type.getD "") "video/" <;>
  first
    | exact absurd (pyStartsWith_exclusive hA hI (by decide)) (by decide)
    | exact absurd (pyStartsWith_exclusive hA hV (by decide)) (by decide)
    | exact absurd (pyStartsWith_exclusive hI hV (by decide)) (by decide)
    | (rw [hA, hI, hV] at h; simp only [if_true, if_false, h]; refine ⟨?_, ?_, ?_, ?_⟩ <;>
        constructor <;> intro hx <;> simp_all)

/-- C8 witness: an `image/png` attachment is classified as `image`. -/
theorem C8_classifier_kind_witness :
    (classify_attachment ⟨"cat.png", "https://cdn/cat.png", 123, some "image/png"⟩).type
      = "image" :=
  (C8_classifier_kind ⟨"cat.png", "https://cdn/cat.png", 123, some "image/png"⟩).2.1.mpr
    (by decide)

/-- The source's key loop agrees with the head of the truthy-key filter. -/
lemma findResponseKey_eq_firstTruthyKeyed (ps : List (String × Json)) :
    ∀ ks, findResponseKey ps ks = firstTruthyKeyed ps ks := by
  intro ks
  induction ks with
  | nil => rfl
  | cons k ks ih =>
    unfold findResponseKey firstTruthyKeyed
    unfold firstTruthyKeyed at ih
    cases h : ps.lookup k with
    | none => simpa [List.filterMap_cons, h] using ih
    | some v =>
      cases ht : truthy v with
      | false => simpa [List.filterMap_cons, h, ht] using ih
      | true => simp [List.filterMap_cons, h, ht]

/-- The dict-inspection cores agree. -/
lemma extractCore_eq_amended (d : Json) : extractCore d = extractAmendedCore d := by
  cases d with
  | obj ps =>
    show (match findResponseKey ps response_keys with
          | some v => pyStr v
          | none => pyStr (Json.obj ps)) =
        ((firstTruthyKeyed ps response_keys).map pyStr).getD (pyStr (Json.obj ps))
    rw [findResponseKey_eq_firstTruthyKeyed]
    cases firstTruthyKeyed ps response_keys <;> simp
  | null => rfl
  | bool b => rfl
  | num n => rfl
  | str s => rfl
  | arr xs => rfl

/-- C2 counterexample: on `{"response": 0, "message": "hi"}` the source
returns `"hi"` (a present key with a falsy value is skipped), while the
claim's rule "first present value whose string form is non-empty" selects
`"0"` (`str(0)` is non-empty). -/
theorem C2_extractor_counterexample :
    extract_response_text (.obj [("response", .num 0), ("message", .str "hi")]) = "hi"
  ∧ extractSpecWorded (.obj [("response", .num 0), ("message", .str "hi")]) = "0"
  ∧ ("hi" : String) ≠ "0" :=
  ⟨rfl, rfl, by decide⟩

/-- C2 amended: the extractor never throws and returns, for a sequence, the
treatment of its first element (empty string for an empty sequence); for a
mapping, the string form of the first value among keys
`response, message, output, text, reply` that is present and truthy;
otherwise the Python string form of the value. -/
theorem C2_extractor_amended (data : Json) :
    extract_response_text data = extractAmendedSpec data := by
  cases data with
  | arr xs =>
    cases xs with
    | nil => rfl
    | cons x _ => exact extractCore_eq_amended x
  | null => exact extractCore_eq_amended .null
  | bool b => exact extractCore_eq_amended (.bool b)
  | num n => exact extractCore_eq_amended (.num n)
  | str s => exact extractCore_eq_amended (.str s)
  | obj ps => exact extractCore_eq_amended (.obj ps)

/-- C4: a message enters the relay pipeline (`process_message`) iff its
author is not a bot and it is either a DM or a direct mention without a
broadcast mention; every other non-bot message goes to the command
dispatcher only. -/
theorem C4_routing (m : InboundMsg) :
    (on_message_route m = .relayPipeline ↔
      m.authorIsBot = false ∧
        (m.isDM = true ∨ (m.botInMentions = true ∧ m.mentionEveryone = false)))
  ∧ (on_message_route m = .commandsOnly ↔
      m.authorIsBot = false ∧ m.isDM = false ∧
        (m.botInMentions = false ∨ m.mentionEveryone = true)) := by
  obtain ⟨b, d, mn, ev⟩ := m
  cases b <;> cases d <;> cases mn <;> cases ev <;> decide

/-- C4 witness: a channel message mentioning both `@everyone` and the bot is
routed to the command dispatcher, not the relay pipeline. -/
theorem C4_routing_witness :
    on_message_route ⟨false, false, true, true⟩ = .commandsOnly :=
  (C4_routing ⟨false, false, true, true⟩).2.mpr (by decide)

/-- `sliceChunksAux` of the empty text is empty at any fuel. -/
lemma sliceChunksAux_nil : ∀ f, sliceChunksAux f [] = [] := by
  intro f; cases f <;> rfl

/-- One step of `sliceChunksAux` on a non-empty text. -/
lemma sliceChunksAux_cons (f : Nat) (cs : List Char) (h : cs ≠ []) :
    sliceChunksAux (f + 1) cs =
      cs.take DISCORD_MESSAGE_LIMIT :: sliceChunksAux f (cs.drop DISCORD_MESSAGE_LIMIT) := by
  cases cs with
  | nil => exact absurd rfl h
  | cons c t => rfl

/-- With enough fuel, concatenating the slices gives back the text. -/
lemma sliceChunksAux_join :
    ∀ (f : Nat) (cs : List Char), cs.length ≤ f → (sliceChunksAux f cs).flatten = cs := by
  intro f
  induction f with
  | zero =>
    intro cs h
    have : cs = [] := List.eq_nil_of_length_eq_zero (Nat.le_zero.mp h)
    subst this; rfl
  | succ f ih =>
    intro cs h
    cases cs with
    | nil => rfl
    | cons c cs' =>
      rw [sliceChunksAux_cons f _ (by simp), List.flatten_cons,
        ih _ (by simp [List.length_drop, DISCORD_MESSAGE_LIMIT] at *; omega),
        List.take_append_drop]

/-- Every slice has at most 2000 code points. -/
lemma sliceChunksAux_bound :
    ∀ (f : Nat) (cs : List Char), ∀ c ∈ sliceChunksAux f cs, c.length ≤ DISCORD_MESSAGE_LIMIT := by
  intro f
  induction f with
  | zero => intro cs c hc; simp [sliceChunksAux] at hc
  | succ f ih =>
    intro cs c hc
    cases cs with
    | nil => simp [sliceChunksAux_nil] at hc
    | cons x xs =>
      rw [sliceChunksAux_cons f _ (by simp)] at hc
      rcases List.mem_cons.mp hc with h | h
      · subst h; exact List.length_take_le DISCORD_MESSAGE_LIMIT (x :: xs)
      · exact ih _ c h

/-- A non-empty text that fits in one message is its own single slice. -/
lemma sliceChunks_short (text : List Char) (hne : text ≠ [])
    (hle : text.length ≤ DISCORD_MESSAGE_LIMIT) : sliceChunks text = [text] := by
  cases text with
  | nil => exact absurd rfl hne
  | cons c t =>
    show sliceChunksAux (t.length + 1) (c :: t) = [c :: t]
    rw [sliceChunksAux_cons t.length _ (by simp),
      List.take_of_length_le hle,
      List.drop_eq_nil_of_le hle, sliceChunksAux_nil]

/-- C5: for every non-empty delivered text, the messages sent are exactly the
consecutive 2000-code-point slices of the text in order: each sent chunk has
length at most 2000, their in-order concatenation is the original text, and
a 4500-character text is sent as three chunks of lengths 2000, 2000, 500. -/
theorem C5_chunking (text : List Char) (hne : text ≠ []) :
    send_chunked_response text = sliceChunks text
  ∧ (∀ c ∈ send_chunked_response text, c.length ≤ 2000)
  ∧ (send_chunked_response text).flatten = text
  ∧ (text.length = 4500 →
      (send_chunked_response text).map List.length = [2000, 2000, 500]) := by
  have heq : send_chunked_response text = sliceChunks text := by
    unfold send_chunked_response
    by_cases hle : text.length ≤ DISCORD_MESSAGE_LIMIT
    · rw [if_pos hle, sliceChunks_short text hne hle]
    · rw [if_neg hle]
  refine ⟨heq, ?_, ?_, ?_⟩
  · rw [heq]
    exact sliceChunksAux_bound text.length text
  · rw [heq]
    exact sliceChunksAux_join text.length text le_rfl
  · intro h4500
    rw [heq]
    have h1 : text ≠ [] := hne
    have h2 : text.drop DISCORD_MESSAGE_LIMIT ≠ [] := by
      intro e
      have : (text.drop DISCORD_MESSAGE_LIMIT).length = 2500 := by
        simp [List.length_drop, h4500, DISCORD_MESSAGE_LIMIT]
      rw [e] at this
      simp at this
    have h3 : (text.drop DISCORD_MESSAGE_LIMIT).drop DISCORD_MESSAGE_LIMIT ≠ [] := by
      intro e
      have : ((text.drop DISCORD_MESSAGE_LIMIT).drop DISCORD_MESSAGE_LIMIT).length = 500 := by
        simp [List.length_drop, h4500, DISCORD_MESSAGE_LIMIT]
      rw [e] at this
      simp at this
    have h4 : ((text.drop DISCORD_MESSAGE_LIMIT).drop DISCORD_MESSAGE_LIMIT).drop
        DISCORD_MESSAGE_LIMIT = [] := by
      apply List.eq_nil_of_length_eq_zero
      simp [List.length_drop, h4500, DISCORD_MESSAGE_LIMIT]
    unfold sliceChunks
    rw [h4500]
    rw [sliceChunksAux_cons 4499 text h1, sliceChunksAux_cons 4498 _ h2,
      sliceChunksAux_cons 4497 _ h3, h4, sliceChunksAux_nil]
    simp [List.length_take, List.length_drop, h4500, DISCORD_MESSAGE_LIMIT]

/-- C5 witness: the two-character text is delivered as itself in one chunk
satisfying all the stated properties. -/
theorem C5_chunking_witness :
    (['h', 'i'] : List Char) ≠ []
  ∧ (send_chunked_response ['h', 'i'] = sliceChunks ['h', 'i']
    ∧ (∀ c ∈ send_chunked_response ['h', 'i'], c.length ≤ 2000)
    ∧ (send_chunked_response ['h', 'i']).flatten = ['h', 'i']
    ∧ ((['h', 'i'] : List Char).length = 4500 →
        (send_chunked_response ['h', 'i']).map List.length = [2000, 2000, 500])) :=
  ⟨by decide, C5_chunking ['h', 'i'] (by decide)⟩

/-- The flag service's declared contract for the body of a 200 reply
(spec §6: `{enabled: bool, ...}`): when a decoded 200 dict carries an
`enabled` field, that field is a boolean. -/
def EnabledWellTyped : FlagOutcome → Prop
  | .response 200 (some (.obj ps)) =>
      ∀ v, ps.lookup "enabled" = some v → v = .bool true ∨ v = .bool false
  | _ => True

/-- C1: under the flag service's boolean contract, the gate's result is
falsy exactly when the session exists and the service answered HTTP 200
with a decoded object whose `enabled` field is `false`; every timeout,
connection error, other exception, non-200 status, undecodable or non-object
body, missing session, or missing `enabled` field yields `true`. -/
theorem C1_flag_fail_open (sess : Bool) (outcome : FlagOutcome)
    (hw : EnabledWellTyped outcome) :
    truthy (is_bot_enabled sess outcome) = false ↔
      sess = true ∧ ∃ ps, outcome = .response 200 (some (.obj ps)) ∧
        ps.lookup "enabled" = some (.bool false) := by
  cases sess with
  | false => simp [is_bot_enabled, truthy]
  | true =>
    constructor
    · intro hfalse
      refine ⟨rfl, ?_⟩
      cases outcome with
      | timeout => simp [is_bot_enabled, truthy] at hfalse
      | connError m => simp [is_bot_enabled, truthy] at hfalse
      | otherExc n => simp [is_bot_enabled, truthy] at hfalse
      | response status body =>
        by_cases hs : status = 200
        · subst hs
          cases body with
          | none => simp [is_bot_enabled, truthy] at hfalse
          | some j =>
            cases j with
            | obj ps =>
              refine ⟨ps, rfl, ?_⟩
              simp only [is_bot_enabled, if_pos rfl, Bool.not_true, Bool.false_eq_true,
                if_false] at hfalse
              cases hL : ps.lookup "enabled" with
              | none => rw [hL] at hfalse; simp [truthy] at hfalse
              | some v =>
                rcases hw v hL with hv | hv <;> subst hv
                · rw [hL] at hfalse; simp [truthy] at hfalse
                · rfl
            | null => simp [is_bot_enabled, truthy] at hfalse
            | bool b => simp [is_bot_enabled, truthy] at hfalse
            | num n => simp [is_bot_enabled, truthy] at hfalse
            | str s => simp [is_bot_enabled, truthy] at hfalse
            | arr xs => simp [is_bot_enabled, truthy] at hfalse
        · simp [is_bot_enabled, hs, truthy] at hfalse
    · rintro ⟨-, ps, rfl, hL⟩
      simp [is_bot_enabled, hL, truthy]

/-- C1 witness: a 200 reply `{"enabled": false}` is the one case that
disables the bot. -/
theorem C1_flag_fail_open_witness :
    EnabledWellTyped (.response 200 (some (.obj [("enabled", .bool false)])))
  ∧ (truthy (is_bot_enabled true (.response 200 (some (.obj [("enabled", .bool false)])))) = false ↔
      true = true ∧ ∃ ps,
        FlagOutcome.response 200 (some (.obj [("enabled", .bool false)])) =
          .response 200 (some (.obj ps)) ∧
        ps.lookup "enabled" = some (.bool false)) := by
  have hw : EnabledWellTyped (.response 200 (some (.obj [("enabled", .bool false)]))) := by
    intro v hv
    simp [List.lookup] at hv
    right
    exact hv.symm
  exact ⟨hw, C1_flag_fail_open true _ hw⟩

/-- C3 counterexample: at HTTP 500 with body `"boom"`, the relay's synthetic
error field is the Spanish `"Error del servidor: 500"`, not the claim's
`"server error: 500"`. -/
theorem C3_relay_counterexample :
    webhook_result (.httpError 500 "boom") =
      .obj [("error", .str "Error del servidor: 500"), ("details", .str "boom")]
  ∧ ("Error del servidor: 500" : String) ≠ "server error: 500" :=
  ⟨rfl, by decide⟩

/-- C3 amended: the relay never propagates an exception (it is a total
function of the single attempt's outcome); on a non-200 status it returns
`{error: "Error del servidor: <status>", details: <body text>}`; on every
failure outcome it returns an object bearing a string `error` field; and a
200 body is returned as decoded. -/
theorem C3_relay_errors (o : WebhookOutcome) :
    (∀ s t, o = .httpError s t →
      webhook_result o =
        .obj [("error", .str ("Error del servidor: " ++ toString s)),
              ("details", .str t)])
  ∧ ((∀ b, o ≠ .ok b) → ∃ msg, getError (webhook_result o) = some (.str msg))
  ∧ (∀ b, o = .ok b → webhook_result o = b) := by
  cases o with
  | noSession =>
    refine ⟨?_, ?_, ?_⟩
    · intro s t h; cases h
    · intro _; exact ⟨"Sesión HTTP no disponible", rfl⟩
    · intro b h; cases h
  | ok body =>
    refine ⟨?_, ?_, ?_⟩
    · intro s t h; cases h
    · intro h; exact absurd rfl (h body)
    · intro b h; cases h; rfl
  | httpError s t =>
    refine ⟨?_, ?_, ?_⟩
    · intro s' t' h; cases h; rfl
    · intro _; exact ⟨"Error del servidor: " ++ toString s, rfl⟩
    · intro b h; cases h
  | connError =>
    refine ⟨?_, ?_, ?_⟩
    · intro s t h; cases h
    · intro _; exact ⟨"No se pudo conectar con el servidor", rfl⟩
    · intro b h; cases h
  | timeout =>
    refine ⟨?_, ?_, ?_⟩
    · intro s t h; cases h
    · intro _; exact ⟨"El servidor tardó demasiado en responder", rfl⟩
    · intro b h; cases h
  | clientError n =>
    refine ⟨?_, ?_, ?_⟩
    · intro s t h; cases h
    · intro _; exact ⟨"Error de red: " ++ n, rfl⟩
    · intro b h; cases h
  | otherExc n =>
    refine ⟨?_, ?_, ?_⟩
    · intro s t h; cases h
    · intro _; exact ⟨"Error inesperado: " ++ n, rfl⟩
    · intro b h; cases h

/-- C3 witness: a connection failure yields an object with a string `error`
field and no propagated exception. -/
theorem C3_relay_errors_witness :
    (∀ b, WebhookOutcome.connError ≠ .ok b)
  ∧ ∃ msg, getError (webhook_result .connError) = some (.str msg) := by
  have h : ∀ b, WebhookOutcome.connError ≠ .ok b := by
    intro b hb
    cases hb
  exact ⟨h, (C3_relay_errors .connError).2.1 h⟩

/-- A concrete message context used by counterexample theorems. -/
def sampleCtx : MessageCtx :=
  { message_id := 1, created_at := "2024-01-01T00:00:00", edited_at := none,
    author_id := 42, author_name := "ana", author_discriminator := "0",
    author_display_name := "Ana", author_is_bot := false, author_avatar_url := none,
    channel_id := 7, channel_type := "text", channel_name := some "general",
    guild := none, member := none }

/-- C7 counterexample: a concrete payload's `platform` field is the string
`"discord"`, which is not the claim's `"chat"`. -/
theorem C7_payload_counterexample :
    getField (build_payload "hola" "42" "ana" sampleCtx none) "platform" =
      some (.str "discord")
  ∧ ("discord" : String) ≠ "chat" :=
  ⟨rfl, by decide⟩

/-- C7 amended: every payload the relay posts carries
`platform = "discord"` (a fixed constant), and its metadata sets both
`conversation_id` and `thread_id` to the originating channel's id. -/
theorem C7_payload_fields (message_text user_id username : String) (m : MessageCtx)
    (attachments : Option (List AttachmentInfo)) :
    getField (build_payload message_text user_id username m attachments) "platform" =
      some (.str "discord")
  ∧ getField (build_metadata m) "conversation_id" = some (.str (toString m.channel_id))
  ∧ getField (build_metadata m) "thread_id" = some (.str (toString m.channel_id)) :=
  ⟨rfl, rfl, rfl⟩

/-- C6: for a non-bot author with the gate passed, a message whose
mention-stripped text and attachment list are both empty yields the help
prompt (and hence no webhook call); a message with empty stripped text but
attachments yields a relay whose payload message is the placeholder keyed by
the first attachment's classified kind, in particular `"[Imagen enviada]"`
for an image. -/
theorem C6_empty_input (m : PipelineMsg) :
    (strippedText m = "" → m.attachments = [] → process_message false true m = .helpPrompt)
  ∧ (∀ a rest, strippedText m = "" → m.attachments = a :: rest →
      process_message false true m =
        .relayed ((default_text_map.lookup (classify_attachment a).type).getD
            "[Archivo enviado]")
          ((a :: rest).map classify_attachment))
  ∧ (∀ a rest, strippedText m = "" → m.attachments = a :: rest →
      (classify_attachment a).type = "image" →
      process_message false true m =
        .relayed "[Imagen enviada]" ((a :: rest).map classify_attachment)) := by
  refine ⟨?_, ?_, ?_⟩
  · intro h1 h2
    simp [process_message, validate_and_prepare_message, h1, h2]
    rfl
  · intro a rest h1 h2
    simp [process_message, validate_and_prepare_message, h1, h2]
    rfl
  · intro a rest h1 h2 h3
    simp [process_message, validate_and_prepare_message, h1, h2, h3, default_text_map,
      List.lookup]
    rfl

/-- C6 witness: an image attachment with empty text is relayed with payload
message `"[Imagen enviada]"`. -/
theorem C6_empty_input_witness :
    strippedText ⟨"", false, 9, [⟨"a.png", "u", 1, some "image/png"⟩]⟩ = ""
  ∧ (⟨"", false, 9, [⟨"a.png", "u", 1, some "image/png"⟩]⟩ : PipelineMsg).attachments =
      [⟨"a.png", "u", 1, some "image/png"⟩]
  ∧ (classify_attachment ⟨"a.png", "u", 1, some "image/png"⟩).type = "image"
  ∧ process_message false true ⟨"", false, 9, [⟨"a.png", "u", 1, some "image/png"⟩]⟩ =
      .relayed "[Imagen enviada]"
        ([(⟨"a.png", "u", 1, some "image/png"⟩ : PyAttachment)].map classify_attachment) :=
  ⟨rfl, rfl, rfl,
    (C6_empty_input ⟨"", false, 9, [⟨"a.png", "u", 1, some "image/png"⟩]⟩).2.2
      ⟨"a.png", "u", 1, some "image/png"⟩ [] rfl rfl rfl⟩

/-- C9 counterexample: the webhook reply
`{"error": "x", "response": "hi"}` has non-empty, non-system extracted text
`"hi"`, yet the handler sends the error notice instead of delivering it. -/
theorem C9_suppression_counterexample :
    extract_response_text (.obj [("error", .str "x"), ("response", .str "hi")]) = "hi"
  ∧ ("hi" : String) ≠ ""
  ∧ ("hi" : String) ∉ SYSTEM_MESSAGES
  ∧ handle_webhook_response (.obj [("error", .str "x"), ("response", .str "hi")]) =
      .ok (.sendError "❌ Lo siento, hubo un error: x")
  ∧ HandlerAction.sendError "❌ Lo siento, hubo un error: x" ≠ .deliver "hi" :=
  ⟨rfl, by decide, by decide, rfl, by decide⟩

/-- C9 amended: for every webhook reply on which the handler's
`"error" in response_data` test is defined and negative, exact system
messages are suppressed with no outbound message, empty extracted text
yields the empty-response notice, and any other extracted text is delivered
verbatim. -/
theorem C9_system_suppression (d : Json) (hOK : errorKeyTest d = .ok false) :
    (extract_response_text d ∈ SYSTEM_MESSAGES →
      handle_webhook_response d = .ok .suppressSystem)
  ∧ (extract_response_text d = "" →
      handle_webhook_response d = .ok .sendEmptyNotice)
  ∧ (extract_response_text d ≠ "" → extract_response_text d ∉ SYSTEM_MESSAGES →
      handle_webhook_response d = .ok (.deliver (extract_response_text d))) := by
  have hh : handle_webhook_response d =
      (if (extract_response_text d).isEmpty then .ok .sendEmptyNotice
       else if extract_response_text d ∈ SYSTEM_MESSAGES then .ok .suppressSystem
       else .ok (.deliver (extract_response_text d))) := by
    unfold handle_webhook_response
    rw [hOK]
  refine ⟨?_, ?_, ?_⟩
  · intro hmem
    have hne : (extract_response_text d).isEmpty = false := by
      rcases List.mem_cons.mp hmem with h | h
      · rw [h]; rfl
      · rcases List.mem_cons.mp h with h' | h'
        · rw [h']; rfl
        · simp at h'
    rw [hh, hne]
    simp [hmem]
  · intro hemp
    rw [hh, hemp]
    rfl
  · intro hne hnm
    have hne' : (extract_response_text d).isEmpty = false := by
      cases he : (extract_response_text d).isEmpty
      · rfl
      · exact absurd ((String.isEmpty_iff _).mp he) hne
    rw [hh, hne']
    simp [hnm]

/-- C9 witness: the reply `{"response": "Workflow started"}` passes the
error test negatively and is suppressed as a system message. -/
theorem C9_system_suppression_witness :
    errorKeyTest (.obj [("response", .str "Workflow started")]) = .ok false
  ∧ (extract_response_text (.obj [("response", .str "Workflow started")]) ∈ SYSTEM_MESSAGES →
      handle_webhook_response (.obj [("response", .str "Workflow started")]) =
        .ok .suppressSystem)
  ∧ handle_webhook_response (.obj [("response", .str "Workflow started")]) =
      .ok .suppressSystem :=
  ⟨rfl,
    (C9_system_suppression (.obj [("response", .str "Workflow started")]) rfl).1,
    (C9_system_suppression (.obj [("response", .str "Workflow started")]) rfl).1
      (by decide)⟩

/-- C10: a webhook reply that is a JSON object containing an `error` key is
answered with the fixed-prefix error notice built from `str` of the error
value, and two such replies with the same error value are handled
identically whatever their other fields — the extractor never runs. -/
theorem C10_error_field_precedence (ps : List (String × Json))
    (h : (ps.any fun p => p.1 == "error") = true) :
    handle_webhook_response (.obj ps) =
      .ok (.sendError ("❌ Lo siento, hubo un error: " ++
        pyStr ((ps.lookup "error").getD (.str "Error desconocido"))))
  ∧ ∀ qs, (qs.any fun p => p.1 == "error") = true →
      ps.lookup "error" = qs.lookup "error" →
      handle_webhook_response (.obj ps) = handle_webhook_response (.obj qs) := by
  constructor
  · simp [handle_webhook_response, errorKeyTest, h]
  · intro qs hq hlook
    simp [handle_webhook_response, errorKeyTest, h, hq, hlook]

/-- C10 witness: `{"error": "boom", "output": "z"}` (an HTTP-200 reply
carrying an `error` field) is reported exactly like the bare relay failure
`{"error": "boom"}`. -/
theorem C10_error_field_precedence_witness :
    (([("error", Json.str "boom"), ("output", Json.str "z")] : List (String × Json)).any
        fun p => p.1 == "error") = true
  ∧ handle_webhook_response (.obj [("error", .str "boom"), ("output", .str "z")]) =
      .ok (.sendError "❌ Lo siento, hubo un error: boom")
  ∧ handle_webhook_response (.obj [("error", .str "boom"), ("output", .str "z")]) =
      handle_webhook_response (.obj [("error", .str "boom")]) :=
  ⟨rfl,
    (C10_error_field_precedence [("error", .str "boom"), ("output", .str "z")] rfl).1,
    (C10_error_field_precedence [("error", .str "boom"), ("output", .str "z")] rfl).2
      [("error", .str "boom")] rfl rfl⟩

end Mia
